import Mathlib

/-!
Verification of the report-rendering engine of `clockify-cli`
(`internal/output/timeEntry.go` and the report flag validator).

Modelling conventions:
* Instants and durations are integers counting nanoseconds (Go's
  `time.Time`/`time.Duration`); `time.Duration` arithmetic is exact here
  (the Go saturation at ±2⁶³ns is ~292 years away from every value a
  report can see).
* `time.Now()` is modelled by a clock stream `clock : Nat → Int` together
  with a counter `k`: the k-th call of `time.Now()` returns `clock k`.
  The Go code calls `time.Now()` once per loop iteration, and the
  embedding mirrors those call sites exactly.
* An output sink (`io.Writer`) is a `WState`: a predicate saying which
  write calls succeed, a write counter, and the text successfully
  written so far.  A failed write writes nothing and reports failure,
  like an `io.Writer` returning an error.
* `int64(d.Hours())` (and `Minutes`, `Seconds`) is modelled as truncating
  integer division: Go computes `float64(d/unit) + float64(d%unit)/unit`,
  where both terms have the sign of `d` and the second has magnitude
  below 1, so the `int64` truncation returns exactly `d` tdiv `unit`
  (idealizing float64 rounding, which is exact for every duration a
  report can see).
* Go's `for _, te := range s` iterates over copies of the slice
  elements; assignments to the loop variable (`te.User = &u`) mutate the
  copy only.  The embedding therefore binds a local copy per iteration
  and, where a claim is about mutation, threads the caller-visible slice
  through the loop explicitly so that "the slice is unchanged" is a
  provable statement rather than a convention.
-/

namespace dto

/-- `dto.Tag`: name and id. -/
structure Tag where
  name : String
  id : String
deriving DecidableEq, Repr

/-- `dto.Project`: the fields the renderers read (id, name, color). -/
structure Project where
  id : String
  name : String
  color : String
deriving DecidableEq, Repr

/-- `dto.Task`: the fields the renderers read (id, name). -/
structure Task where
  id : String
  name : String
deriving DecidableEq, Repr

/-- `dto.User`: the fields the renderers read (id, email, name). -/
structure User where
  id : String
  email : String
  name : String
deriving DecidableEq, Repr

/-- `dto.TimeInterval`: a required start instant and an optional end
instant (`nil` = still running), in nanoseconds. -/
structure TimeInterval where
  start : Int
  endTime : Option Int
deriving DecidableEq, Repr

/-- `dto.TimeEntry` as read by the renderers. -/
structure TimeEntry where
  id : String
  description : String
  timeInterval : TimeInterval
  project : Option Project
  task : Option Task
  user : Option User
  tags : List Tag
deriving DecidableEq, Repr

end dto

/-- Nanoseconds per second (`time.Second`). -/
def nsPerSecond : Int := 1000000000

/-- Nanoseconds per minute (`time.Minute`). -/
def nsPerMinute : Int := 60000000000

/-- Nanoseconds per hour (`time.Hour`). -/
def nsPerHour : Int := 3600000000000

/-- `int64(d.Hours())`: whole hours of `d`, truncated toward zero. -/
def hoursInt (d : Int) : Int := Int.tdiv d nsPerHour

/-- `int64(d.Minutes())`: whole minutes of `d`, truncated toward zero. -/
def minutesInt (d : Int) : Int := Int.tdiv d nsPerMinute

/-- `int64(d.Seconds())`: whole seconds of `d`, truncated toward zero. -/
def secondsInt (d : Int) : Int := Int.tdiv d nsPerSecond

/-- Go's `%` on integers truncates toward zero (`Int.tmod`). -/
def goMod (a b : Int) : Int := Int.tmod a b

/-- The minutes component printed by `durationToString`:
`int64(d.Minutes()) % 60`. -/
def minutesComponent (d : Int) : Int := goMod (minutesInt d) 60

/-- The seconds component printed by `durationToString`:
`int64(d.Seconds()) % 60`. -/
def secondsComponent (d : Int) : Int := goMod (secondsInt d) 60

/-- Go's `fmt.Sprintf("%02d", n)`: decimal representation of `n`,
left-padded with zeros to at least two characters (the sign counts
toward the width, as in Go). -/
def pad2 (n : Int) : String :=
  let s := toString n
  if s.length < 2 then "0" ++ s else s

/-- `durationToString` (timeEntry.go:354-357):
`fmt.Sprintf("%d:%02d:%02d", int64(d.Hours()), int64(d.Minutes())%60,
int64(d.Seconds())%60)`. -/
def durationToString (d : Int) : String :=
  toString (hoursInt d) ++ ":" ++ pad2 (minutesComponent d)
    ++ ":" ++ pad2 (secondsComponent d)

/-- An output sink with its write history: `okAt` says which write calls
succeed, `idx` counts the write calls made so far, `out` is the text
successfully written so far. -/
structure WState where
  okAt : Nat → Bool
  idx : Nat
  out : String

/-- One write call against the sink: on success the text is appended,
on failure nothing is written and the failure is reported (the `error`
result of an `io.Writer`). -/
def wwrite (s : String) (st : WState) : Bool × WState :=
  if st.okAt st.idx then
    (true, { st with idx := st.idx + 1, out := st.out ++ s })
  else
    (false, { st with idx := st.idx + 1 })

/-- A sink all of whose writes succeed, with empty history. -/
def okSink : WState := ⟨fun _ => true, 0, ""⟩

/-- A sink all of whose writes fail (e.g. a broken pipe), with empty
history. -/
def failSink : WState := ⟨fun _ => false, 0, ""⟩

/-- `sumTimeEntriesDuration` (timeEntry.go:34-46).  Each loop iteration
calls `time.Now()` once (`end := time.Now()`), so the clock counter
advances once per entry, open or closed; an open entry's duration uses
the sample taken during its own iteration.  Returns the sum and the
clock counter after the pass. -/
def sumTimeEntriesDuration (clock : Nat → Int) : Nat → List dto.TimeEntry → Int × Nat
  | k, [] => (0, k)
  | k, te :: rest =>
    let now := clock k
    let e := te.timeInterval.endTime.getD now
    let d := e - te.timeInterval.start
    let rec_ := sumTimeEntriesDuration clock (k + 1) rest
    (d + rec_.1, rec_.2)

/-- The per-entry durations computed by the `sumTimeEntriesDuration`
loop, in order: entry `i` of the pass starting at clock counter `k`
gets duration `(end ?? clock (k+i)) - start`. -/
def entryDurations (clock : Nat → Int) : Nat → List dto.TimeEntry → List Int
  | _, [] => []
  | k, te :: rest =>
    (te.timeInterval.endTime.getD (clock k) - te.timeInterval.start)
      :: entryDurations clock (k + 1) rest

/-- `timeEntriesTotalDurationOnly` (timeEntry.go:25-32):
`_, err := fmt.Fprintln(w, f(sumTimeEntriesDuration(timeEntries)));
return err`. -/
def timeEntriesTotalDurationOnly (f : Int → String) (clock : Nat → Int)
    (k : Nat) (timeEntries : List dto.TimeEntry) (st : WState) :
    Except String Unit × WState :=
  let w := wwrite (f (sumTimeEntriesDuration clock k timeEntries).1 ++ "\n") st
  (if w.1 then Except.ok () else Except.error "write error", w.2)

/-- `fmt.Sprintf("%f", d.Hours())`: decimal hours with six digits after
the point, rounding the exact rational value to the nearest multiple of
10⁻⁶ (ties away from zero; idealizes float64 rounding).  Theorems only
evaluate this at a total of zero. -/
def formatHoursFloat (d : Int) : String :=
  let sign := if d < 0 then "-" else ""
  let microHours := (Int.natAbs d * 1000000 + 1800000000000) / 3600000000000
  let ip := microHours / 1000000
  let fp := microHours % 1000000
  let fs := Nat.repr fp
  sign ++ Nat.repr ip ++ "." ++ (String.mk (List.replicate (6 - fs.length) '0')) ++ fs

/-- `TimeEntriesTotalDurationOnlyAsFloat` (timeEntry.go:48-56). -/
def TimeEntriesTotalDurationOnlyAsFloat (clock : Nat → Int) (k : Nat)
    (timeEntries : List dto.TimeEntry) (st : WState) :
    Except String Unit × WState :=
  timeEntriesTotalDurationOnly formatHoursFloat clock k timeEntries st

/-- `TimeEntriesTotalDurationOnlyFormatted` (timeEntry.go:58-66). -/
def TimeEntriesTotalDurationOnlyFormatted (clock : Nat → Int) (k : Nat)
    (timeEntries : List dto.TimeEntry) (st : WState) :
    Except String Unit × WState :=
  timeEntriesTotalDurationOnly durationToString clock k timeEntries st

/-- `TimeEntriesPrintQuietly` (timeEntry.go:69-75): writes one line per
entry with its ID, discarding `fmt.Fprintln`'s result, and returns
`nil` unconditionally. -/
def TimeEntriesPrintQuietly : List dto.TimeEntry → WState → Except String Unit × WState
  | [], st => (Except.ok (), st)
  | te :: rest, st =>
    TimeEntriesPrintQuietly rest (wwrite (te.id ++ "\n") st).2

/-- `tagsToStringSlice` (timeEntry.go:231-239): one string per tag,
formatted `"name (id)"`. -/
def tagsToStringSlice (tags : List dto.Tag) : List String :=
  tags.map (fun t => t.name ++ " (" ++ t.id ++ ")")

/-- The fixed CSV header record (timeEntry.go:246-260): 12 fixed column
names followed by the `tags...` marker. -/
def csvHeader : List String :=
  ["id", "description", "project.id", "project.name", "task.id",
   "task.name", "start", "end", "duration", "user.id", "user.email",
   "user.name", "tags..."]

/-- `encoding/csv` field quoting: a field is quoted when it contains a
comma, a double quote, or a line break (model of the external library;
no proven field ever needs quoting). -/
def csvFieldNeedsQuotes (s : String) : Bool :=
  s.toList.any (fun c => c = ',' || c = '"' || c = '\n' || c = '\r')

/-- `encoding/csv` field serialization: quoted fields double every
inner quote. -/
def csvEscapeField (s : String) : String :=
  if csvFieldNeedsQuotes s then
    "\"" ++ String.join (s.toList.map
      (fun c => if c = '"' then "\"\"" else String.singleton c)) ++ "\""
  else s

/-- `encoding/csv` record serialization: comma-separated fields and a
newline terminator. -/
def csvLine (fields : List String) : String :=
  String.intercalate "," (fields.map csvEscapeField) ++ "\n"

/-- The CSV `format` closure (timeEntry.go:265-270): `nil` renders as
the empty string, otherwise the instant is formatted with the layout
`"2006-01-02 15:04:05"` in local time.  The layout formatting itself is
the external `time` library, abstracted as the `fmtTime` parameter; no
theorem depends on its text. -/
def csvFormatTime (fmtTime : Int → String) : Option Int → String
  | none => ""
  | some t => fmtTime t

/-- The loop-local copy of an entry in `TimeEntriesCSVPrint`
(timeEntry.go:283-291): `te.User = &u` / `te.Task = &t` fill empty
defaults into the per-iteration copy `te` of the slice element. -/
def csvLocalEntry (te : dto.TimeEntry) : dto.TimeEntry :=
  let te1 := match te.user with
    | none => { te with user := some ⟨"", "", ""⟩ }
    | some _ => te
  match te1.task with
  | none => { te1 with task := some ⟨"", ""⟩ }
  | some _ => te1

/-- One CSV record (timeEntry.go:272-311): 12 fixed fields, then one
trailing field per tag.  `p` is the zero `dto.Project` when the entry
has none; `now` is the `time.Now()` sample of this iteration. -/
def csvRow (fmtTime : Int → String) (now : Int) (te0 : dto.TimeEntry) :
    List String :=
  let p := te0.project.getD ⟨"", "", ""⟩
  let e := te0.timeInterval.endTime.getD now
  let te := csvLocalEntry te0
  [te.id, te.description, p.id, p.name,
   (te.task.getD ⟨"", ""⟩).id, (te.task.getD ⟨"", ""⟩).name,
   csvFormatTime fmtTime (some te.timeInterval.start),
   csvFormatTime fmtTime te.timeInterval.endTime,
   durationToString (e - te.timeInterval.start),
   (te.user.getD ⟨"", "", ""⟩).id, (te.user.getD ⟨"", "", ""⟩).email,
   (te.user.getD ⟨"", "", ""⟩).name]
  ++ tagsToStringSlice te.tags

/-- The record loop of `TimeEntriesCSVPrint` (timeEntry.go:272-313).
Each iteration samples `time.Now()` once, writes one record, and aborts
with the write error if the write fails.  The third component is the
caller-visible slice after the loop: Go's `range` hands the body a copy
of each element, so the element put back is the original one. -/
def csvLoop (fmtTime : Int → String) (clock : Nat → Int) :
    Nat → List dto.TimeEntry → WState →
    Except String Unit × WState × List dto.TimeEntry
  | _, [], st => (Except.ok (), st, [])
  | k, te :: rest, st =>
    let w := wwrite (csvLine (csvRow fmtTime (clock k) te)) st
    if w.1 then
      let next := csvLoop fmtTime clock (k + 1) rest w.2
      (next.1, next.2.1, te :: next.2.2)
    else
      (Except.error "write error", w.2, te :: rest)

/-- `TimeEntriesCSVPrint` (timeEntry.go:242-317): header record first
(aborting on failure), then one record per entry, then `Flush` /
`w.Error()`.  The `encoding/csv` buffering is modelled as immediate
writes: the source checks every `Write`'s error and `w.Error()` after
the flush, so the call returns a non-nil error exactly when a sink
write fails.  The third component is the caller-visible slice after the
call. -/
def TimeEntriesCSVPrint (fmtTime : Int → String) (clock : Nat → Int)
    (k : Nat) (timeEntries : List dto.TimeEntry) (st : WState) :
    Except String Unit × WState × List dto.TimeEntry :=
  let w := wwrite (csvLine csvHeader) st
  if w.1 then csvLoop fmtTime clock k timeEntries w.2
  else (Except.error "write error", w.2, timeEntries)

/-- `TimeEntryOutputOptions` (timeEntry.go:113-118); the `TimeFormat`
layout string is abstracted into the `fmtTime` parameter of the table
renderer, since layout interpretation is the external `time` library. -/
structure TimeEntryOutputOptions where
  showTasks : Bool
  showTotalDuration : Bool

/-- The table header (timeEntry.go:166-176): seven columns; when tasks
are shown, `header[5] = "Task"` overwrites the sixth entry (the
`append(header[:5], header[5:]...)` preceding it is an identity). -/
def tableHeader (showTasks : Bool) : List String :=
  let header := ["ID", "Start", "End", "Dur", "Project", "Description", "Tags"]
  if showTasks then header.set 5 "Task" else header

/-- One table row (timeEntry.go:184-216): `end` is this iteration's
`time.Now()` sample when the entry is open; when tasks are shown,
`line[5]` is overwritten with `"name (id)"` of the task, or `""` when
the entry has none. -/
def tableRow (fmtTime : Int → String) (showTasks : Bool) (now : Int)
    (te : dto.TimeEntry) : List String :=
  let e := te.timeInterval.endTime.getD now
  let projectName := match te.project with
    | some p => p.name
    | none => ""
  let line := [te.id, fmtTime te.timeInterval.start, fmtTime e,
    durationToString (e - te.timeInterval.start), projectName,
    te.description, String.intercalate ", " (tagsToStringSlice te.tags)]
  if showTasks then
    line.set 5 (match te.task with
      | some t => t.name ++ " (" ++ t.id ++ ")"
      | none => "")
  else line

/-- The row loop of the table renderer: one `time.Now()` sample per
iteration; returns the rows and the clock counter after the loop. -/
def tableRows (fmtTime : Int → String) (showTasks : Bool)
    (clock : Nat → Int) : Nat → List dto.TimeEntry →
    List (List String) × Nat
  | k, [] => ([], k)
  | k, te :: rest =>
    let next := tableRows fmtTime showTasks clock (k + 1) rest
    (tableRow fmtTime showTasks (clock k) te :: next.1, next.2)

/-- Serialization of the collected table by the external `tablewriter`
library, abstracted as one write of header and rows; no theorem depends
on its text, only on the fact that `Render()` reports no error to the
caller. -/
def renderTable (header : List String) (rows : List (List String)) : String :=
  String.intercalate "|" header ++ "\n"
    ++ String.join (rows.map (fun r => String.intercalate "|" r ++ "\n"))

/-- `TimeEntriesPrint` (timeEntry.go:148-228) after option processing:
builds the rows (one `time.Now()` sample per row), optionally appends
the `TOTAL` footer whose `Dur` cell re-runs `sumTimeEntriesDuration`
(consuming further clock samples), renders through `tablewriter`, and
returns `nil` unconditionally — `Render()` exposes no write error. -/
def TimeEntriesPrint (options : TimeEntryOutputOptions)
    (fmtTime : Int → String) (clock : Nat → Int) (k : Nat)
    (timeEntries : List dto.TimeEntry) (st : WState) :
    Except String Unit × WState :=
  let built := tableRows fmtTime options.showTasks clock k timeEntries
  let rows := if options.showTotalDuration then
      built.1 ++ [["TOTAL", "", "",
        durationToString (sumTimeEntriesDuration clock built.2 timeEntries).1,
        "", "", ""]]
    else built.1
  let w := wwrite (renderTable (tableHeader options.showTasks) rows) st
  (Except.ok (), w.2)

/-- Minimal JSON string escaping (external `encoding/json`); no theorem
depends on its text. -/
def jsonEscape (s : String) : String :=
  String.join (s.toList.map (fun c =>
    if c = '"' then "\\\""
    else if c = '\\' then "\\\\"
    else if c = '\n' then "\\n"
    else String.singleton c))

/-- A JSON string literal. -/
def jsonStr (s : String) : String := "\"" ++ jsonEscape s ++ "\""

/-- Modelled from the spec: the JSON object for one `dto.TimeEntry`
("field names matching the entry's public attribute names") — the `dto`
package with its struct tags is not part of the sources, and no theorem
depends on this object's text, only on the serialization of the empty
collection. -/
def entryJson (te : dto.TimeEntry) : String :=
  "\x7b" ++ jsonStr "id" ++ ":" ++ jsonStr te.id ++ ","
    ++ jsonStr "description" ++ ":" ++ jsonStr te.description ++ "\x7d"

/-- `encoding/json` array serialization of the collection. -/
def jsonArray (entries : List dto.TimeEntry) : String :=
  "[" ++ String.intercalate "," (entries.map entryJson) ++ "]"

/-- `TimeEntriesJSONPrint` (timeEntry.go:21-23):
`json.NewEncoder(w).Encode(t)` — one write of the array followed by a
newline, whose error is returned. -/
def TimeEntriesJSONPrint (timeEntries : List dto.TimeEntry) (st : WState) :
    Except String Unit × WState :=
  let w := wwrite (jsonArray timeEntries ++ "\n") st
  (if w.1 then Except.ok () else Except.error "write error", w.2)

/-- The view handed to the user template for one entry
(timeEntry.go:336-345): the entry's fields plus `First` and `Last`. -/
structure TemplateView where
  entry : dto.TimeEntry
  First : Bool
  Last : Bool
deriving DecidableEq, Repr

/-- The sequence of views evaluated by `TimeEntriesPrintWithTemplate`:
`First: i == 0`, `Last: i == (len(timeEntries) - 1)`. -/
def viewsOf (entries : List dto.TimeEntry) : List TemplateView :=
  entries.enum.map (fun p => ⟨p.2, p.1 == 0, p.1 == entries.length - 1⟩)

/-- The execute loop of `TimeEntriesPrintWithTemplate`
(timeEntry.go:336-350): for each view, `t.Execute(w, view)` either
fails evaluating (error returned, rendering aborted) or writes the
evaluated text (a failed sink write is returned by `Execute` as well);
the trailing `fmt.Fprintln(w)`'s result is discarded by the source. -/
def runTemplate (t : TemplateView → Except String String) :
    List TemplateView → WState → Except String Unit × WState
  | [], st => (Except.ok (), st)
  | v :: vs, st =>
    match t v with
    | Except.error e => (Except.error e, st)
    | Except.ok s =>
      let w := wwrite s st
      if w.1 then runTemplate t vs (wwrite "\n" w.2).2
      else (Except.error "write error", w.2)

/-- `TimeEntriesPrintWithTemplate` (timeEntry.go:327-352).  The external
`text/template` engine's parse step is the `parsed` argument:
`Except.error` when `template.New("tmpl").Funcs(funcMap).Parse(format)`
fails, otherwise the function mapping a view to what `Execute` emits
for it (or to its evaluation error). -/
def TimeEntriesPrintWithTemplate
    (parsed : Except String (TemplateView → Except String String))
    (timeEntries : List dto.TimeEntry) (st : WState) :
    Except String Unit × WState :=
  match parsed with
  | Except.error e => (Except.error e, st)
  | Except.ok t => runTemplate t (viewsOf timeEntries) st

/-- `util.ReportFlags`, the fields `Check` reads.
Modelled from the spec: the package
`pkg/cmd/time-entry/report/util` is not part of the sources (only its
test is); fields per spec §3. -/
structure ReportFlags where
  billable : Bool
  notBillable : Bool
  client : String
  project : String
deriving DecidableEq, Repr

/-- `util.NewReportFlags`: zero-valued flags. -/
def NewReportFlags : ReportFlags := ⟨false, false, "", ""⟩

/-- Modelled from the spec: `util.ReportFlags.Check` is not part of the
sources.  Spec §4.1: rules evaluated in order, first violation wins —
(1) `Billable && NotBillable` fails with a message identifying both
flag names and stating they cannot be used together (the test asserts
the regexp `can't be used together.*billable.*not-billable`); (2)
`Client != "" && Project == ""` fails with the exact message asserted
by the test; otherwise passes.  Pure: no side effects, input not
mutated. -/
def ReportFlags.Check (rf : ReportFlags) : Option String :=
  if rf.billable && rf.notBillable then
    some "the following flags can't be used together: 'billable' and 'not-billable'"
  else if rf.client != "" && rf.project == "" then
    some "flag 'client' can't be used without flag 'project'"
  else
    none

/-- A still-running entry (no end instant) starting at instant 0. -/
def sampleOpenEntry : dto.TimeEntry :=
  ⟨"open1", "work", ⟨0, none⟩, none, none, none, []⟩

/-- A closed entry: 10:00:00 to 10:30:00 (instants as seconds past
midnight, in nanoseconds). -/
def sampleClosedEntry : dto.TimeEntry :=
  ⟨"a", "", ⟨36000000000000, some 37800000000000⟩, none, none, none, []⟩

/-- A still-running entry starting at 11:00:00. -/
def sampleOpenEntryB : dto.TimeEntry :=
  ⟨"b", "", ⟨39600000000000, none⟩, none, none, none, []⟩

/-- An entry with no project/task/user associations and one tag. -/
def sampleBareEntry : dto.TimeEntry :=
  ⟨"id1", "d", ⟨0, some 60000000000⟩, none, none, none, [⟨"t1", "g1"⟩]⟩

/-- The text of a list of already-rendered rows, each followed by the
newline that `fmt.Fprintln(w)` appends after every entry. -/
def rowsText : List String → String
  | [] => ""
  | s :: rest => s ++ "\n" ++ rowsText rest

/-- The pass total is the sum of the per-entry durations of the same
pass. -/
theorem sum_fst_eq_durations_sum (clock : Nat → Int) :
    ∀ (k : Nat) (entries : List dto.TimeEntry),
      (sumTimeEntriesDuration clock k entries).1
        = (entryDurations clock k entries).sum
  | _, [] => rfl
  | k, te :: rest => by
    have ih := sum_fst_eq_durations_sum clock (k + 1) rest
    simp [sumTimeEntriesDuration, entryDurations, ih]

/-- One duration is recorded per entry. -/
theorem entryDurations_length (clock : Nat → Int) :
    ∀ (k : Nat) (entries : List dto.TimeEntry),
      (entryDurations clock k entries).length = entries.length
  | _, [] => rfl
  | k, _ :: rest => by
    simp [entryDurations, entryDurations_length clock (k + 1) rest]

/-- The duration recorded for entry `i` of a pass starting at clock
counter `k` uses the clock sample of its own iteration, `clock (k+i)`. -/
theorem entryDurations_get (clock : Nat → Int) :
    ∀ (k i : Nat) (entries : List dto.TimeEntry) (hi : i < entries.length)
      (hi2 : i < (entryDurations clock k entries).length),
      (entryDurations clock k entries).get ⟨i, hi2⟩
        = (entries.get ⟨i, hi⟩).timeInterval.endTime.getD (clock (k + i))
          - (entries.get ⟨i, hi⟩).timeInterval.start
  | _, 0, _ :: _, _, _ => by simp [entryDurations]
  | k, i + 1, te :: rest, hi, hi2 => by
    have hlen := entryDurations_length clock (k + 1) rest
    have hi' : i < rest.length := by simpa using hi
    have hi2' : i < (entryDurations clock (k + 1) rest).length := by omega
    have ih := entryDurations_get clock (k + 1) i rest hi' hi2'
    have hidx : k + 1 + i = k + (i + 1) := by omega
    simpa [entryDurations, hidx] using ih

/-- `%02d` of a value between 0 and 59 is two characters long. -/
theorem pad2_length_two : ∀ (m : Int), 0 ≤ m → m < 60 → (pad2 m).length = 2 := by
  intro m h0 h60
  interval_cases m <;> rfl

/-- `tmod` negates with its dividend. -/
theorem tmod_neg_left (a b : Int) : Int.tmod (-a) b = -(Int.tmod a b) := by
  simp only [Int.tmod_def, Int.neg_tdiv]
  ring

/-- For a nonnegative duration, `durationToString` is the unbounded
whole-hours count followed by two-digit minute and second components in
the range 0–59. -/
theorem durationToString_shape {d : Int} (h : 0 ≤ d) :
    durationToString d
      = toString (hoursInt d) ++ ":" ++ pad2 (minutesComponent d) ++ ":"
        ++ pad2 (secondsComponent d)
    ∧ nsPerHour * hoursInt d ≤ d ∧ d < nsPerHour * (hoursInt d + 1)
    ∧ 0 ≤ minutesComponent d ∧ minutesComponent d < 60
    ∧ (pad2 (minutesComponent d)).length = 2
    ∧ 0 ≤ secondsComponent d ∧ secondsComponent d < 60
    ∧ (pad2 (secondsComponent d)).length = 2 := by
  have hH : hoursInt d = d / 3600000000000 := by
    unfold hoursInt nsPerHour
    exact Int.tdiv_eq_ediv h (by decide)
  have hMc : minutesComponent d = d / 60000000000 % 60 := by
    unfold minutesComponent goMod minutesInt nsPerMinute
    rw [Int.tdiv_eq_ediv h (by decide)]
    exact Int.tmod_eq_emod (Int.ediv_nonneg h (by decide)) (by decide)
  have hSc : secondsComponent d = d / 1000000000 % 60 := by
    unfold secondsComponent goMod secondsInt nsPerSecond
    rw [Int.tdiv_eq_ediv h (by decide)]
    exact Int.tmod_eq_emod (Int.ediv_nonneg h (by decide)) (by decide)
  have hMr : 0 ≤ minutesComponent d ∧ minutesComponent d < 60 := by
    rw [hMc]; omega
  have hSr : 0 ≤ secondsComponent d ∧ secondsComponent d < 60 := by
    rw [hSc]; omega
  refine ⟨rfl, ?_, ?_, hMr.1, hMr.2, pad2_length_two _ hMr.1 hMr.2,
    hSr.1, hSr.2, pad2_length_two _ hSr.1 hSr.2⟩
  · unfold nsPerHour; rw [hH]; omega
  · unfold nsPerHour; rw [hH]; omega

/-- For a duration of a whole negative second or less, at least one
printed component of `durationToString` is negative. -/
theorem durationToString_neg_component {d : Int} (h : d ≤ -1000000000) :
    hoursInt d < 0 ∨ minutesComponent d < 0 ∨ secondsComponent d < 0 := by
  have hdn : d = -(d.natAbs : Int) := by omega
  set n := d.natAbs with hn
  have h1 : 1000000000 ≤ n := by omega
  have hH : hoursInt d = -((n / 3600000000000 : Nat) : Int) := by
    unfold hoursInt nsPerHour
    rw [hdn, Int.neg_tdiv, Int.ofNat_tdiv]
    norm_num
  have hMm : minutesInt d = -((n / 60000000000 : Nat) : Int) := by
    unfold minutesInt nsPerMinute
    rw [hdn, Int.neg_tdiv, Int.ofNat_tdiv]
    norm_num
  have hM : minutesComponent d = -(((n / 60000000000) % 60 : Nat) : Int) := by
    unfold minutesComponent goMod
    rw [hMm, tmod_neg_left, Int.ofNat_tmod]
    norm_num
  have hSs : secondsInt d = -((n / 1000000000 : Nat) : Int) := by
    unfold secondsInt nsPerSecond
    rw [hdn, Int.neg_tdiv, Int.ofNat_tdiv]
    norm_num
  have hS : secondsComponent d = -(((n / 1000000000) % 60 : Nat) : Int) := by
    unfold secondsComponent goMod
    rw [hSs, tmod_neg_left, Int.ofNat_tmod]
    norm_num
  rw [hH, hM, hS]
  omega

/-- The quiet renderer returns success for every collection and sink. -/
theorem quiet_returns_ok : ∀ (entries : List dto.TimeEntry) (st : WState),
    (TimeEntriesPrintQuietly entries st).1 = Except.ok ()
  | [], _ => rfl
  | te :: rest, st => quiet_returns_ok rest (wwrite (te.id ++ "\n") st).2

/-- The CSV record loop leaves the caller-visible slice untouched. -/
theorem csvLoop_slice (fmtTime : Int → String) (clock : Nat → Int) :
    ∀ (k : Nat) (entries : List dto.TimeEntry) (st : WState),
      (csvLoop fmtTime clock k entries st).2.2 = entries
  | _, [], _ => rfl
  | k, te :: rest, st => by
    have ih := csvLoop_slice fmtTime clock (k + 1) rest
      (wwrite (csvLine (csvRow fmtTime (clock k) te)) st).2
    simp only [csvLoop]
    split
    · simp [ih]
    · rfl

/-- C1 is false as stated: within one duration-aggregation pass,
`time.Now()` is called once per loop iteration, so two identical open
entries record different durations once the clock advances between the
iterations — no single instant `now` satisfies `duration = now - start`
for both rows of the same pass. -/
theorem C1_counterexample :
    ¬ ∃ now : Int,
      entryDurations (fun j => 100 * (j : Int)) 0 [sampleOpenEntry, sampleOpenEntry]
        = [now - sampleOpenEntry.timeInterval.start,
           now - sampleOpenEntry.timeInterval.start] := by
  rintro ⟨now, h⟩
  simp [entryDurations, sampleOpenEntry] at h
  omega

/-- C1 (amended): `now` is sampled anew at every loop iteration — one
`time.Now()` call per entry — so in a pass starting at clock counter
`k`, the duration recorded for entry `i` is
`(end ?? clock (k+i)) - start`, each open entry using the sample of its
own iteration rather than one shared instant; the total of the pass is
the sum of exactly these per-row durations. -/
theorem C1_amended (clock : Nat → Int) (k i : Nat)
    (entries : List dto.TimeEntry) (hi : i < entries.length)
    (hi2 : i < (entryDurations clock k entries).length) :
    (entryDurations clock k entries).get ⟨i, hi2⟩
      = (entries.get ⟨i, hi⟩).timeInterval.endTime.getD (clock (k + i))
        - (entries.get ⟨i, hi⟩).timeInterval.start
    ∧ (sumTimeEntriesDuration clock k entries).1
      = (entryDurations clock k entries).sum :=
  ⟨entryDurations_get clock k i entries hi hi2,
   sum_fst_eq_durations_sum clock k entries⟩

/-- Instantiation of the amended C1 at a concrete two-entry pass with
an advancing clock. -/
theorem C1_amended_witness :
    (entryDurations (fun j => 100 * (j : Int)) 0
        [sampleOpenEntry, sampleOpenEntry]).get ⟨1, by decide⟩
      = ([sampleOpenEntry, sampleOpenEntry].get ⟨1, by decide⟩).timeInterval.endTime.getD
          ((fun j => 100 * (j : Int)) (0 + 1))
        - ([sampleOpenEntry, sampleOpenEntry].get ⟨1, by decide⟩).timeInterval.start
    ∧ (sumTimeEntriesDuration (fun j => 100 * (j : Int)) 0
        [sampleOpenEntry, sampleOpenEntry]).1
      = (entryDurations (fun j => 100 * (j : Int)) 0
          [sampleOpenEntry, sampleOpenEntry]).sum :=
  C1_amended (fun j => 100 * (j : Int)) 0 1 [sampleOpenEntry, sampleOpenEntry]
    (by decide) (by decide)

/-- C2 is false as stated: against a sink all of whose writes fail, the
quiet renderer and the table renderer still return success (both
discard the results of their writes). -/
theorem C2_counterexample :
    (TimeEntriesPrintQuietly [sampleOpenEntry] failSink).1 = Except.ok ()
    ∧ (TimeEntriesPrint ⟨false, false⟩ (fun t => toString t) (fun _ => 0) 0
        [sampleOpenEntry] failSink).1 = Except.ok () :=
  ⟨rfl, rfl⟩

/-- C2 (amended): the quiet renderer and the table renderer ignore
write failures and return success for every collection and every sink;
the renderers that do check their writes — the two duration-only
renderers, JSON, and CSV — return a non-nil error when the sink's
writes fail. -/
theorem C2_amended (entries : List dto.TimeEntry) (st : WState)
    (options : TimeEntryOutputOptions) (fmtTime : Int → String)
    (clock : Nat → Int) (k : Nat) :
    (TimeEntriesPrintQuietly entries st).1 = Except.ok ()
    ∧ (TimeEntriesPrint options fmtTime clock k entries st).1 = Except.ok ()
    ∧ (TimeEntriesTotalDurationOnlyFormatted clock k entries failSink).1
      = Except.error "write error"
    ∧ (TimeEntriesTotalDurationOnlyAsFloat clock k entries failSink).1
      = Except.error "write error"
    ∧ (TimeEntriesJSONPrint entries failSink).1 = Except.error "write error"
    ∧ (TimeEntriesCSVPrint fmtTime clock k entries failSink).1
      = Except.error "write error" :=
  ⟨quiet_returns_ok entries st, rfl, rfl, rfl, rfl, rfl⟩

/-- C3: `Check` fails with a message naming both flags and stating they
cannot be used together when `Billable` and `NotBillable` are both set;
fails with the dependent-flag message when `Client` is set while
`Project` is empty; and passes in every other combination of these
fields.  `Check` is a pure function of its argument (no side effects,
no mutation of the input), by construction. -/
theorem C3_report_flags_check (rf : ReportFlags) :
    (rf.billable = true ∧ rf.notBillable = true →
      rf.Check = some "the following flags can't be used together: 'billable' and 'not-billable'")
    ∧ (¬(rf.billable = true ∧ rf.notBillable = true) ∧ rf.client ≠ "" ∧ rf.project = "" →
      rf.Check = some "flag 'client' can't be used without flag 'project'")
    ∧ (rf.Check = none ↔
      ¬(rf.billable = true ∧ rf.notBillable = true)
        ∧ (rf.client = "" ∨ rf.project ≠ "")) := by
  obtain ⟨b, nb, c, p⟩ := rf
  cases b <;> cases nb <;>
    by_cases hc : c = "" <;> by_cases hp : p = "" <;>
      simp_all [ReportFlags.Check]

/-- Instantiation of C3 at the three flag combinations exercised by the
repository's tests. -/
theorem C3_report_flags_check_witness :
    (⟨true, true, "", ""⟩ : ReportFlags).Check
      = some "the following flags can't be used together: 'billable' and 'not-billable'"
    ∧ (⟨false, false, "me", ""⟩ : ReportFlags).Check
      = some "flag 'client' can't be used without flag 'project'"
    ∧ (⟨false, false, "me", "mine"⟩ : ReportFlags).Check = none :=
  ⟨(C3_report_flags_check ⟨true, true, "", ""⟩).1 ⟨rfl, rfl⟩,
   (C3_report_flags_check ⟨false, false, "me", ""⟩).2.1
     ⟨by simp, by decide, rfl⟩,
   (C3_report_flags_check ⟨false, false, "me", "mine"⟩).2.2.mpr
     ⟨by simp, Or.inr (by decide)⟩⟩

/-- C5: every renderer treats the empty collection as valid: JSON
writes the empty array, CSV exactly the header record and nothing else,
quiet writes nothing, and both duration-only renderers write a zero
total. -/
theorem C5_empty_collection :
    (TimeEntriesJSONPrint [] okSink).1 = Except.ok ()
    ∧ (TimeEntriesJSONPrint [] okSink).2.out = "[]\n"
    ∧ (TimeEntriesCSVPrint (fun t => toString t) (fun _ => 0) 0 [] okSink).1
      = Except.ok ()
    ∧ (TimeEntriesCSVPrint (fun t => toString t) (fun _ => 0) 0 [] okSink).2.1.out
      = "id,description,project.id,project.name,task.id,task.name,start,end,duration,user.id,user.email,user.name,tags...\n"
    ∧ (TimeEntriesPrintQuietly [] okSink).2.out = ""
    ∧ (TimeEntriesTotalDurationOnlyFormatted (fun _ => 0) 0 [] okSink).2.out
      = "0:00:00\n"
    ∧ (TimeEntriesTotalDurationOnlyAsFloat (fun _ => 0) 0 [] okSink).2.out
      = "0.000000\n" := by
  refine ⟨rfl, by decide, rfl, by decide, rfl, by decide, by decide⟩

/-- C6: a CSV record has exactly 12 fixed fields before the trailing
tag fields (one per tag, each `"name (id)"`); an absent project, task
or user association surfaces as empty-string fields at the fixed
positions, never as a dropped column. -/
theorem C6_csv_row (fmtTime : Int → String) (now : Int) (te : dto.TimeEntry) :
    (csvRow fmtTime now te).length = 12 + te.tags.length
    ∧ (csvRow fmtTime now te).drop 12
      = te.tags.map (fun t => t.name ++ " (" ++ t.id ++ ")")
    ∧ (te.project = none →
        (csvRow fmtTime now te)[2]? = some ""
        ∧ (csvRow fmtTime now te)[3]? = some "")
    ∧ (te.task = none →
        (csvRow fmtTime now te)[4]? = some ""
        ∧ (csvRow fmtTime now te)[5]? = some "")
    ∧ (te.user = none →
        (csvRow fmtTime now te)[9]? = some ""
        ∧ (csvRow fmtTime now te)[10]? = some ""
        ∧ (csvRow fmtTime now te)[11]? = some "") := by
  obtain ⟨i, de, ti, pr, ta, us, tags⟩ := te
  cases pr <;> cases ta <;> cases us <;>
    simp [csvRow, csvLocalEntry, tagsToStringSlice] <;> omega

/-- Instantiation of C6 at an entry with no associations and one tag. -/
theorem C6_csv_row_witness :
    (csvRow (fun t => toString t) 0 sampleBareEntry).length = 12 + 1
    ∧ (csvRow (fun t => toString t) 0 sampleBareEntry)[2]? = some ""
    ∧ (csvRow (fun t => toString t) 0 sampleBareEntry)[4]? = some ""
    ∧ (csvRow (fun t => toString t) 0 sampleBareEntry)[9]? = some ""
    ∧ (csvRow (fun t => toString t) 0 sampleBareEntry).drop 12 = ["t1 (g1)"] := by
  have h := C6_csv_row (fun t => toString t) 0 sampleBareEntry
  exact ⟨h.1, (h.2.2.1 rfl).1, (h.2.2.2.1 rfl).1, (h.2.2.2.2 rfl).1,
    by rw [h.2.1]; rfl⟩

/-- C4: the duration-only formatted renderer writes exactly one line,
`durationToString` of the total — the sum over the collection of the
per-entry durations `(end ?? now) - start`, zero for the empty
collection — and, the total being nonnegative, that line is `H:MM:SS`
with an unbounded (not wrapped at 24) hours component and two-digit
zero-padded minutes and seconds in 0–59. -/
theorem C4_duration_only_formatted (clock : Nat → Int) (k : Nat)
    (entries : List dto.TimeEntry)
    (hnn : 0 ≤ (sumTimeEntriesDuration clock k entries).1) :
    (TimeEntriesTotalDurationOnlyFormatted clock k entries okSink).1 = Except.ok ()
    ∧ (TimeEntriesTotalDurationOnlyFormatted clock k entries okSink).2.out
      = durationToString ((entryDurations clock k entries).sum) ++ "\n"
    ∧ (sumTimeEntriesDuration clock k ([] : List dto.TimeEntry)).1 = 0
    ∧ durationToString ((entryDurations clock k entries).sum)
      = toString (hoursInt ((entryDurations clock k entries).sum)) ++ ":"
        ++ pad2 (minutesComponent ((entryDurations clock k entries).sum)) ++ ":"
        ++ pad2 (secondsComponent ((entryDurations clock k entries).sum))
    ∧ nsPerHour * hoursInt ((entryDurations clock k entries).sum)
      ≤ (entryDurations clock k entries).sum
    ∧ (entryDurations clock k entries).sum
      < nsPerHour * (hoursInt ((entryDurations clock k entries).sum) + 1)
    ∧ 0 ≤ minutesComponent ((entryDurations clock k entries).sum)
    ∧ minutesComponent ((entryDurations clock k entries).sum) < 60
    ∧ (pad2 (minutesComponent ((entryDurations clock k entries).sum))).length = 2
    ∧ 0 ≤ secondsComponent ((entryDurations clock k entries).sum)
    ∧ secondsComponent ((entryDurations clock k entries).sum) < 60
    ∧ (pad2 (secondsComponent ((entryDurations clock k entries).sum))).length = 2 := by
  have hsum := sum_fst_eq_durations_sum clock k entries
  have hs : 0 ≤ (entryDurations clock k entries).sum := hsum ▸ hnn
  have hshape := durationToString_shape hs
  refine ⟨rfl, ?_, rfl, hshape.1, hshape.2.1, hshape.2.2.1, hshape.2.2.2.1,
    hshape.2.2.2.2.1, hshape.2.2.2.2.2.1, hshape.2.2.2.2.2.2.1,
    hshape.2.2.2.2.2.2.2.1, hshape.2.2.2.2.2.2.2.2⟩
  show (wwrite (durationToString (sumTimeEntriesDuration clock k entries).1
    ++ "\n") okSink).2.out = _
  rw [hsum]
  simp [wwrite, okSink]

/-- Instantiation of C4 at the specification's own scenario: a closed
30-minute entry plus an open entry 15 minutes old, total `0:45:00`. -/
theorem C4_duration_only_formatted_witness :
    0 ≤ (sumTimeEntriesDuration (fun _ => 40500000000000) 0
      [sampleClosedEntry, sampleOpenEntryB]).1
    ∧ (TimeEntriesTotalDurationOnlyFormatted (fun _ => 40500000000000) 0
        [sampleClosedEntry, sampleOpenEntryB] okSink).2.out = "0:45:00\n" := by
  refine ⟨by decide, ?_⟩
  have h := C4_duration_only_formatted (fun _ => 40500000000000) 0
    [sampleClosedEntry, sampleOpenEntryB] (by decide)
  rw [h.2.1]
  decide

/-- One successful evaluate-and-write step of the execute loop against
an all-successful sink. -/
theorem runTemplate_cons_ok (t : TemplateView → Except String String)
    (w : TemplateView) (o : String) (vs : List TemplateView) (st : WState)
    (hok : ∀ n, st.okAt n = true) (hw : t w = Except.ok o) :
    runTemplate t (w :: vs) st
      = runTemplate t vs
          { st with idx := st.idx + 1 + 1, out := st.out ++ o ++ "\n" } := by
  simp [runTemplate, hw, wwrite, hok]

/-- The execute loop against an all-successful sink, with every view
before `v` evaluating successfully and `v` failing to evaluate: exactly
the rows of the views before `v` are appended to the sink, and `v`'s
evaluation error is returned. -/
theorem runTemplate_prefix_fail (t : TemplateView → Except String String)
    (e : String) (v : TemplateView) :
    ∀ (pre : List TemplateView) (outs : List String)
      (rest : List TemplateView) (st : WState),
      (∀ n, st.okAt n = true) →
      pre.map t = outs.map Except.ok →
      t v = Except.error e →
      (runTemplate t (pre ++ v :: rest) st).1 = Except.error e
      ∧ (runTemplate t (pre ++ v :: rest) st).2.out = st.out ++ rowsText outs
  | [], outs, rest, st, _, hmap, hv => by
    have houts : outs = [] := by
      cases outs with
      | nil => rfl
      | cons o os => simp at hmap
    subst houts
    simp [runTemplate, hv, rowsText]
  | w :: pre, outs, rest, st, hok, hmap, hv => by
    cases outs with
    | nil => simp at hmap
    | cons o os =>
      simp only [List.map_cons, List.cons.injEq] at hmap
      obtain ⟨hw, hmap'⟩ := hmap
      have hstep := runTemplate_cons_ok t w o (pre ++ v :: rest) st hok hw
      have ih := runTemplate_prefix_fail t e v pre os rest
        { st with idx := st.idx + 1 + 1, out := st.out ++ o ++ "\n" }
        (fun n => hok n) hmap' hv
      rw [List.cons_append, hstep]
      refine ⟨ih.1, ?_⟩
      rw [ih.2]
      simp [rowsText, String.append_assoc]

/-- C7: a template that fails to parse is fatal — the renderer returns
the parse error with nothing written; a template that fails evaluating
a specific entry aborts rendering there — the rows already written for
the earlier entries remain, no row is written for it or any later
entry, and the evaluation error is returned. -/
theorem C7_template_failures (e : String) (entries : List dto.TimeEntry)
    (st : WState) (t : TemplateView → Except String String)
    (pre : List TemplateView) (v : TemplateView) (rest : List TemplateView)
    (outs : List String)
    (hok : ∀ n, st.okAt n = true)
    (hsplit : viewsOf entries = pre ++ v :: rest)
    (hmap : pre.map t = outs.map Except.ok)
    (hfail : t v = Except.error e) :
    (TimeEntriesPrintWithTemplate (Except.error e) entries st).1 = Except.error e
    ∧ (TimeEntriesPrintWithTemplate (Except.error e) entries st).2.out = st.out
    ∧ (TimeEntriesPrintWithTemplate (Except.ok t) entries st).1 = Except.error e
    ∧ (TimeEntriesPrintWithTemplate (Except.ok t) entries st).2.out
      = st.out ++ rowsText outs := by
  have h := runTemplate_prefix_fail t e v pre outs rest st hok hmap hfail
  refine ⟨rfl, rfl, ?_, ?_⟩
  · show (runTemplate t (viewsOf entries) st).1 = Except.error e
    rw [hsplit]; exact h.1
  · show (runTemplate t (viewsOf entries) st).2.out = _
    rw [hsplit]; exact h.2

/-- Instantiation of C7: two entries, the template failing on the
second; the first row remains written and the error is returned. -/
theorem C7_template_failures_witness :
    (TimeEntriesPrintWithTemplate (Except.error "boom")
        [sampleClosedEntry, sampleOpenEntryB] okSink).2.out = ""
    ∧ (TimeEntriesPrintWithTemplate
        (Except.ok (fun w => if w.First then Except.ok "row0" else Except.error "boom"))
        [sampleClosedEntry, sampleOpenEntryB] okSink).1 = Except.error "boom"
    ∧ (TimeEntriesPrintWithTemplate
        (Except.ok (fun w => if w.First then Except.ok "row0" else Except.error "boom"))
        [sampleClosedEntry, sampleOpenEntryB] okSink).2.out = "" ++ rowsText ["row0"] := by
  have h := C7_template_failures "boom" [sampleClosedEntry, sampleOpenEntryB] okSink
    (fun w => if w.First then Except.ok "row0" else Except.error "boom")
    [⟨sampleClosedEntry, true, false⟩] ⟨sampleOpenEntryB, false, true⟩ [] ["row0"]
    (fun _ => rfl) rfl rfl rfl
  exact ⟨h.2.1, h.2.2.1, h.2.2.2⟩

/-- C8: the views the user-template renderer evaluates carry `First`
true exactly at index 0 and `Last` true exactly at the final index
(both true for the single view of a one-element collection); one view
per entry, in order. -/
theorem C8_first_last (entries : List dto.TimeEntry) (i : Nat)
    (_hne : entries ≠ []) (hi : i < (viewsOf entries).length) :
    ((viewsOf entries).get ⟨i, hi⟩).First = (i == 0)
    ∧ ((viewsOf entries).get ⟨i, hi⟩).Last = (i == entries.length - 1)
    ∧ (viewsOf entries).length = entries.length := by
  refine ⟨?_, ?_, by simp [viewsOf]⟩ <;>
    simp [viewsOf, List.get_eq_getElem]

/-- Instantiation of C8 at a three-element and a one-element
collection. -/
theorem C8_first_last_witness :
    ((viewsOf [sampleClosedEntry, sampleOpenEntryB, sampleBareEntry]).get
      ⟨0, by decide⟩).First = true
    ∧ ((viewsOf [sampleClosedEntry, sampleOpenEntryB, sampleBareEntry]).get
      ⟨0, by decide⟩).Last = false
    ∧ ((viewsOf [sampleClosedEntry, sampleOpenEntryB, sampleBareEntry]).get
      ⟨1, by decide⟩).First = false
    ∧ ((viewsOf [sampleClosedEntry, sampleOpenEntryB, sampleBareEntry]).get
      ⟨1, by decide⟩).Last = false
    ∧ ((viewsOf [sampleClosedEntry, sampleOpenEntryB, sampleBareEntry]).get
      ⟨2, by decide⟩).First = false
    ∧ ((viewsOf [sampleClosedEntry, sampleOpenEntryB, sampleBareEntry]).get
      ⟨2, by decide⟩).Last = true
    ∧ ((viewsOf [sampleOpenEntry]).get ⟨0, by decide⟩).First = true
    ∧ ((viewsOf [sampleOpenEntry]).get ⟨0, by decide⟩).Last = true := by
  have h0 := C8_first_last [sampleClosedEntry, sampleOpenEntryB, sampleBareEntry]
    0 (by simp) (by decide)
  have h1 := C8_first_last [sampleClosedEntry, sampleOpenEntryB, sampleBareEntry]
    1 (by simp) (by decide)
  have h2 := C8_first_last [sampleClosedEntry, sampleOpenEntryB, sampleBareEntry]
    2 (by simp) (by decide)
  have hs := C8_first_last [sampleOpenEntry] 0 (by simp) (by decide)
  exact ⟨h0.1, h0.2.1, h1.1, h1.2.1, h2.1, h2.2.1, hs.1, hs.2.1⟩

/-- C9: the CSV renderer does not mutate the caller's collection: the
caller-visible slice after the call equals the input for every
collection, clock, and sink; the empty `User`/`Task` defaults are
filled into the loop-local copy (`csvLocalEntry`) from which the row is
computed, never into the slice element. -/
theorem C9_csv_no_mutation (fmtTime : Int → String) (clock : Nat → Int)
    (k : Nat) (entries : List dto.TimeEntry) (st : WState) :
    (TimeEntriesCSVPrint fmtTime clock k entries st).2.2 = entries
    ∧ (∀ te : dto.TimeEntry, te.user = none →
        (csvLocalEntry te).user = some ⟨"", "", ""⟩)
    ∧ (∀ te : dto.TimeEntry, te.task = none →
        (csvLocalEntry te).task = some ⟨"", ""⟩) := by
  refine ⟨?_, ?_, ?_⟩
  · simp only [TimeEntriesCSVPrint]
    split
    · exact csvLoop_slice fmtTime clock k entries _
    · rfl
  · intro te h
    unfold csvLocalEntry
    cases ht : te.task <;> simp [h, ht]
  · intro te h
    unfold csvLocalEntry
    cases hu : te.user <;> simp [hu, h]

/-- Instantiation of C9 at a one-element collection whose entry lacks
all three associations. -/
theorem C9_csv_no_mutation_witness :
    (TimeEntriesCSVPrint (fun t => toString t) (fun _ => 0) 0
      [sampleBareEntry] okSink).2.2 = [sampleBareEntry]
    ∧ (csvLocalEntry sampleBareEntry).user = some ⟨"", "", ""⟩
    ∧ (csvLocalEntry sampleBareEntry).task = some ⟨"", ""⟩ := by
  have h := C9_csv_no_mutation (fun t => toString t) (fun _ => 0) 0
    [sampleBareEntry] okSink
  exact ⟨h.1, h.2.1 sampleBareEntry rfl, h.2.2 sampleBareEntry rfl⟩

/-- C10 is false as stated: a strictly negative duration (end half a
second before start) still renders as "0:00:00" — the `H:MM:SS` shape
with no negative component anywhere. -/
theorem C10_counterexample :
    (-500000000 : Int) < 0
    ∧ durationToString (-500000000) = "0:00:00"
    ∧ hoursInt (-500000000) = 0
    ∧ minutesComponent (-500000000) = 0
    ∧ secondsComponent (-500000000) = 0 := by
  refine ⟨by decide, by decide, by decide, by decide, by decide⟩

/-- C10 (amended): for every nonnegative duration, `durationToString`
yields the unbounded whole-hours count with two-digit zero-padded
minute and second components in 0–59; the output acquires a negative
component only once the duration reaches a whole negative second
(`d ≤ -1s`), and then at least one of the three printed components is
negative — durations strictly between -1s and 0 render as "0:00:00". -/
theorem C10_amended (d : Int) :
    (0 ≤ d →
      durationToString d
        = toString (hoursInt d) ++ ":" ++ pad2 (minutesComponent d) ++ ":"
          ++ pad2 (secondsComponent d)
      ∧ nsPerHour * hoursInt d ≤ d ∧ d < nsPerHour * (hoursInt d + 1)
      ∧ 0 ≤ minutesComponent d ∧ minutesComponent d < 60
      ∧ (pad2 (minutesComponent d)).length = 2
      ∧ 0 ≤ secondsComponent d ∧ secondsComponent d < 60
      ∧ (pad2 (secondsComponent d)).length = 2)
    ∧ (d ≤ -1000000000 →
      hoursInt d < 0 ∨ minutesComponent d < 0 ∨ secondsComponent d < 0)
    ∧ (-1000000000 < d → d < 0 → durationToString d = "0:00:00") := by
  refine ⟨fun h => durationToString_shape h,
    fun h => durationToString_neg_component h, ?_⟩
  intro h1 h2
  have hdn : d = -(d.natAbs : Int) := by omega
  set n := d.natAbs with hn
  have hsmall : n < 1000000000 := by omega
  have hH : hoursInt d = -((n / 3600000000000 : Nat) : Int) := by
    unfold hoursInt nsPerHour
    rw [hdn, Int.neg_tdiv, Int.ofNat_tdiv]
    norm_num
  have hMm : minutesInt d = -((n / 60000000000 : Nat) : Int) := by
    unfold minutesInt nsPerMinute
    rw [hdn, Int.neg_tdiv, Int.ofNat_tdiv]
    norm_num
  have hM : minutesComponent d = -(((n / 60000000000) % 60 : Nat) : Int) := by
    unfold minutesComponent goMod
    rw [hMm, tmod_neg_left, Int.ofNat_tmod]
    norm_num
  have hSs : secondsInt d = -((n / 1000000000 : Nat) : Int) := by
    unfold secondsInt nsPerSecond
    rw [hdn, Int.neg_tdiv, Int.ofNat_tdiv]
    norm_num
  have hS : secondsComponent d = -(((n / 1000000000) % 60 : Nat) : Int) := by
    unfold secondsComponent goMod
    rw [hSs, tmod_neg_left, Int.ofNat_tmod]
    norm_num
  have hH0 : hoursInt d = 0 := by rw [hH]; omega
  have hM0 : minutesComponent d = 0 := by rw [hM]; omega
  have hS0 : secondsComponent d = 0 := by rw [hS]; omega
  unfold durationToString
  rw [hH0, hM0, hS0]
  rfl

/-- Instantiation of the amended C10: 25h 1m 1s decomposes with an
unwrapped hours count; -1h 1m 1s has a negative printed component;
-0.5s renders as "0:00:00". -/
theorem C10_amended_witness :
    ((0 : Int) ≤ 90061000000000
      ∧ durationToString 90061000000000
        = toString (hoursInt 90061000000000) ++ ":"
          ++ pad2 (minutesComponent 90061000000000) ++ ":"
          ++ pad2 (secondsComponent 90061000000000))
    ∧ (hoursInt (-3661000000000) < 0 ∨ minutesComponent (-3661000000000) < 0
      ∨ secondsComponent (-3661000000000) < 0)
    ∧ durationToString (-499999999) = "0:00:00" :=
  ⟨⟨by decide, ((C10_amended 90061000000000).1 (by decide)).1⟩,
   (C10_amended (-3661000000000)).2.1 (by decide),
   (C10_amended (-499999999)).2.2 (by decide) (by decide)⟩
